import Mathlib

/-
Verification of the dataset-normalization layer (dataset.py) of the
overlord repository.  The per-reader extraction logic is embedded
shallowly: numpy arrays become lists or update-functions, Python integer
arithmetic becomes Int arithmetic (Python `//` on a nonnegative dividend
with positive divisor coincides with Int `/`, which is Euclidean division
in Lean), Python slicing is modelled with its exact clamping rules, and
float arithmetic in the keypoint remap is modelled over ℚ.
-/

/- ------------------------------------------------------------------
Geometric normalizer: Cub.read, dataset.py lines 84-117.
A BBox holds the 0-indexed inclusive bounding box, i.e. the values after
the `- 1` shift applied on lines 85-86.
------------------------------------------------------------------- -/

structure BBox where
  x1 : Int
  y1 : Int
  x2 : Int
  y2 : Int
deriving DecidableEq

/-- width = bbox.x2 - bbox.x1 + 1 (dataset.py line 90). -/
def boxWidth (b : BBox) : Int := b.x2 - b.x1 + 1

/-- height = bbox.y2 - bbox.y1 + 1 (dataset.py line 89). -/
def boxHeight (b : BBox) : Int := b.y2 - b.y1 + 1

/-- box_length = max(width, height) (dataset.py line 91). -/
def boxLength (b : BBox) : Int := max (boxWidth b) (boxHeight b)

/-- y1 = max(bbox.y1 - (box_length - height) // 2, 0) (line 93).
box_length - height is nonnegative, so Python floor division agrees
with Int division. -/
def cropY1 (b : BBox) : Int := max (b.y1 - (boxLength b - boxHeight b) / 2) 0

/-- y2 = y1 + box_length - 1 (line 94). -/
def cropY2 (b : BBox) : Int := cropY1 b + boxLength b - 1

/-- x1 = max(bbox.x1 - (box_length - width) // 2, 0) (line 96). -/
def cropX1 (b : BBox) : Int := max (b.x1 - (boxLength b - boxWidth b) / 2) 0

/-- x2 = x1 + box_length - 1 (line 97). -/
def cropX2 (b : BBox) : Int := cropX1 b + boxLength b - 1

/-- Python slice-index normalization for a length-n axis: a negative
index is shifted by n and clamped at 0, a nonnegative one is clamped
at n. -/
def pyIndex (n : Nat) (i : Int) : Int := if i < 0 then max (i + n) 0 else min i n

/-- Number of elements selected by the Python slice a[lo:hi] on a
length-n axis (step 1). -/
def pySliceLen (lo hi : Int) (n : Nat) : Nat := (pyIndex n hi - pyIndex n lo).toNat

/-- Row count of img_masked[y1:y2, x1:x2] (line 99) on an image with
imgRows rows. -/
def cropRows (b : BBox) (imgRows : Nat) : Nat := pySliceLen (cropY1 b) (cropY2 b) imgRows

/-- Column count of img_masked[y1:y2, x1:x2] (line 99) on an image with
imgCols columns. -/
def cropCols (b : BBox) (imgCols : Nat) : Nat := pySliceLen (cropX1 b) (cropX2 b) imgCols

/-- cv2.resize: rejects an empty source (cv2 raises `!ssize.empty()`),
otherwise the output has exactly the requested dsize = (width, height),
i.e. shape (height, width). -/
def cvResizeDims (srcRows srcCols : Nat) (dsize : Nat × Nat) : Except String (Nat × Nat) :=
  if srcRows = 0 ∨ srcCols = 0 then Except.error "resize: empty source" else Except.ok (dsize.2, dsize.1)

/-- Crop-and-resize of one bounding box as performed by Cub.read
(lines 89-104): derive the square window, slice it out of an
imgRows × imgCols image, resize to (imgSize, imgSize).  Returns the
output shape, or the error that cv2.resize raises on an empty crop.
No other failure point exists in this code path. -/
def cubProcessBox (imgRows imgCols imgSize : Nat) (b : BBox) : Except String (Nat × Nat) :=
  cvResizeDims (cropRows b imgRows) (cropCols b imgCols) (imgSize, imgSize)

/- ------------------------------------------------------------------
Keypoint remap: Cub.read, dataset.py lines 107-117, over ℚ.
img_scale = img_size / box_length (line 102); a visible keypoint is
shifted to 0-indexing (line 109), translated by the crop origin, scaled
(lines 111/114), and mapped into [-1, 1] (lines 112/115).
------------------------------------------------------------------- -/

/-- Coordinate remap: v = (x - origin) * (s / l); result 2*(v/s) - 1,
with s the target size and l the box length. -/
def remapCoord (s l origin x : ℚ) : ℚ := 2 * (((x - origin) * (s / l)) / s) - 1

/-- Inverse of remapCoord, composed step by step: undo the [-1,1] map,
undo the scale factor s / l, add back the crop origin. -/
def remapCoordInv (s l origin v : ℚ) : ℚ := ((v + 1) / 2 * s) * (l / s) + origin

/-- Remap of a visible keypoint x coordinate (raw, 1-indexed; the - 1 of
line 109 is applied here) by lines 111-112. -/
def cubRemapX (s : ℚ) (b : BBox) (x : ℚ) : ℚ := remapCoord s (boxLength b) (cropX1 b) (x - 1)

/-- Remap of a visible keypoint y coordinate by lines 114-115. -/
def cubRemapY (s : ℚ) (b : BBox) (y : ℚ) : ℚ := remapCoord s (boxLength b) (cropY1 b) (y - 1)

/-- One keypoint row (x, y, visibility): remapped when visibility > 0
(line 108), passed through unchanged otherwise. -/
def remapPart (s : ℚ) (b : BBox) (p : ℚ × ℚ × ℚ) : ℚ × ℚ × ℚ :=
  if p.2.2 > 0 then (cubRemapX s b p.1, cubRemapY s b p.2.1, p.2.2) else p

/- ------------------------------------------------------------------
Bounds on the crop window, used for claims C5 and C7.
------------------------------------------------------------------- -/

lemma cropX1_nonneg (b : BBox) : 0 ≤ cropX1 b := by
  simp only [cropX1, boxLength, boxHeight, boxWidth]
  omega

lemma cropY1_nonneg (b : BBox) : 0 ≤ cropY1 b := by
  simp only [cropY1, boxLength, boxHeight, boxWidth]
  omega

lemma cropX1_le_x1 (b : BBox) (h : 0 ≤ b.x1) : cropX1 b ≤ b.x1 := by
  simp only [cropX1, boxLength, boxHeight, boxWidth]
  omega

lemma cropY1_le_y1 (b : BBox) (h : 0 ≤ b.y1) : cropY1 b ≤ b.y1 := by
  simp only [cropY1, boxLength, boxHeight, boxWidth]
  omega

lemma x2_le_cropX1_add (b : BBox) : b.x2 ≤ cropX1 b + boxLength b - 1 := by
  simp only [cropX1, boxLength, boxHeight, boxWidth]
  omega

lemma y2_le_cropY1_add (b : BBox) : b.y2 ≤ cropY1 b + boxLength b - 1 := by
  simp only [cropY1, boxLength, boxHeight, boxWidth]
  omega

lemma boxLength_pos (b : BBox) (h : b.x1 ≤ b.x2) : 1 ≤ boxLength b := by
  simp only [boxLength, boxHeight, boxWidth]
  omega

lemma remapCoord_bounds (s l origin x : ℚ) (hs : 0 < s) (hl : 0 < l)
    (h0 : origin ≤ x) (h1 : x ≤ origin + l) :
    -1 ≤ remapCoord s l origin x ∧ remapCoord s l origin x ≤ 1 := by
  have hs' : s ≠ 0 := ne_of_gt hs
  have hl' : l ≠ 0 := ne_of_gt hl
  have key : remapCoord s l origin x = 2 * ((x - origin) / l) - 1 := by
    unfold remapCoord
    field_simp
    ring
  have hnum0 : 0 ≤ x - origin := by linarith
  have hd0 : 0 ≤ (x - origin) / l := div_nonneg hnum0 (le_of_lt hl)
  have hd1 : (x - origin) / l ≤ 1 := by
    rw [div_le_one hl]
    linarith
  rw [key]
  constructor <;> linarith

/- ------------------------------------------------------------------
Claim C1.
------------------------------------------------------------------- -/

/-- Claim C1 (code_bug evaluation): on a 100×100 image with the interior
0-indexed box (x1,y1,x2,y2) = (10,10,19,19), whose width and height are
both 10, the crop actually sliced out by line 99 is 9×9, not
max(w,h) = 10 as the claim states: the code computes the inclusive
corner y2 = y1 + box_length - 1 and then uses it as an exclusive Python
slice bound.  The resize output is nonetheless exactly
target_size × target_size. -/
theorem cub_crop_off_by_one :
    cropRows ⟨10, 10, 19, 19⟩ 100 = 9 ∧
    cropCols ⟨10, 10, 19, 19⟩ 100 = 9 ∧
    boxLength ⟨10, 10, 19, 19⟩ = 10 ∧
    cubProcessBox 100 100 256 ⟨10, 10, 19, 19⟩ = Except.ok (256, 256) :=
  ⟨by decide, by decide, by decide, rfl⟩

/- ------------------------------------------------------------------
Claim C5.
------------------------------------------------------------------- -/

/-- Claim C5 (counterexample): the degenerate box x1 = x2 = 3,
y1 = 0 < y2 = 9 on a 100×100 image is NOT rejected: no InvalidRegion
check exists anywhere in Cub.read, the window derivation proceeds and
the crop-and-resize succeeds. -/
theorem cub_degenerate_box_ok :
    (BBox.mk 3 0 3 9).x2 ≤ (BBox.mk 3 0 3 9).x1 ∧
    cubProcessBox 100 100 256 ⟨3, 0, 3, 9⟩ = Except.ok (256, 256) :=
  ⟨by decide, rfl⟩

/-- Claim C5 (amended): Cub.read performs no bounding-box validation.
A box degenerate in x (x1 ≥ x2) that is inside the image and has
y1 < y2 is processed without any error: the derived crop is nonempty,
so even the one real failure point (cv2.resize on an empty source)
is not reached. -/
theorem cub_degenerate_no_error (imgRows imgCols imgSize : Nat) (b : BBox)
    (hx0 : 0 ≤ b.x1) (hxW : b.x1 < (imgCols : Int)) (hdeg : b.x2 ≤ b.x1)
    (hy0 : 0 ≤ b.y1) (hyy : b.y1 < b.y2) (hyH : b.y2 < (imgRows : Int)) :
    cubProcessBox imgRows imgCols imgSize b = Except.ok (imgSize, imgSize) := by
  have hr : cropRows b imgRows ≠ 0 := by
    simp only [cropRows, pySliceLen, pyIndex, cropY2, cropY1, boxLength, boxHeight, boxWidth]
    split_ifs <;> omega
  have hc : cropCols b imgCols ≠ 0 := by
    simp only [cropCols, pySliceLen, pyIndex, cropX2, cropX1, boxLength, boxHeight, boxWidth]
    split_ifs <;> omega
  simp [cubProcessBox, cvResizeDims, hr, hc]

/-- Claim C5 witness: concrete instance of cub_degenerate_no_error. -/
theorem cub_degenerate_no_error_w :
    0 ≤ (BBox.mk 5 2 5 8).x1 ∧ (BBox.mk 5 2 5 8).x2 ≤ (BBox.mk 5 2 5 8).x1 ∧
    cubProcessBox 100 100 256 ⟨5, 2, 5, 8⟩ = Except.ok (256, 256) :=
  ⟨by decide, by decide,
    cub_degenerate_no_error 100 100 256 ⟨5, 2, 5, 8⟩ (by decide) (by decide)
      (by decide) (by decide) (by decide) (by decide)⟩

/- ------------------------------------------------------------------
Claim C7.
------------------------------------------------------------------- -/

/-- Claim C7 (counterexample): a keypoint flagged visible but lying
outside the bounding box is remapped outside [-1, 1].  With
target size 128, 0-indexed box (0,0,9,9) and raw keypoint (51, 5, 1),
the stored x coordinate is 9 > 1. -/
theorem cub_keypoint_out_of_range :
    remapPart 128 ⟨0, 0, 9, 9⟩ (51, 5, 1) = (9, -1/5, 1) ∧ ¬((9 : ℚ) ≤ 1) := by
  constructor
  · norm_num [remapPart, cubRemapX, cubRemapY, remapCoord, cropX1, cropY1,
      boxLength, boxWidth, boxHeight]
  · norm_num

/-- Claim C7 (amended): for a visible keypoint whose 0-indexed
coordinates lie inside the (valid, nonnegative-origin) bounding box,
the remapped x and y coordinates stored by Cub.read lie in [-1, 1]. -/
theorem cub_keypoint_bounds (s : ℚ) (b : BBox) (p : ℚ × ℚ × ℚ)
    (hs : 0 < s)
    (hx0 : 0 ≤ b.x1) (hy0 : 0 ≤ b.y1)
    (hxv : b.x1 ≤ b.x2) (hyv : b.y1 ≤ b.y2)
    (hvis : p.2.2 > 0)
    (hxl : (b.x1 : ℚ) ≤ p.1 - 1) (hxr : p.1 - 1 ≤ (b.x2 : ℚ))
    (hyl : (b.y1 : ℚ) ≤ p.2.1 - 1) (hyr : p.2.1 - 1 ≤ (b.y2 : ℚ)) :
    (-1 ≤ (remapPart s b p).1 ∧ (remapPart s b p).1 ≤ 1) ∧
    (-1 ≤ (remapPart s b p).2.1 ∧ (remapPart s b p).2.1 ≤ 1) := by
  have hL : (0 : ℚ) < (boxLength b : ℚ) := by
    have := boxLength_pos b hxv
    exact_mod_cast lt_of_lt_of_le Int.zero_lt_one (by exact_mod_cast this)
  have hx : -1 ≤ cubRemapX s b p.1 ∧ cubRemapX s b p.1 ≤ 1 := by
    apply remapCoord_bounds s _ _ _ hs hL
    · calc ((cropX1 b : Int) : ℚ) ≤ (b.x1 : ℚ) := by exact_mod_cast cropX1_le_x1 b hx0
        _ ≤ p.1 - 1 := hxl
    · have hcast : (b.x2 : ℚ) ≤ (cropX1 b : ℚ) + (boxLength b : ℚ) - 1 := by
        exact_mod_cast x2_le_cropX1_add b
      linarith
  have hy : -1 ≤ cubRemapY s b p.2.1 ∧ cubRemapY s b p.2.1 ≤ 1 := by
    apply remapCoord_bounds s _ _ _ hs hL
    · calc ((cropY1 b : Int) : ℚ) ≤ (b.y1 : ℚ) := by exact_mod_cast cropY1_le_y1 b hy0
        _ ≤ p.2.1 - 1 := hyl
    · have hcast : (b.y2 : ℚ) ≤ (cropY1 b : ℚ) + (boxLength b : ℚ) - 1 := by
        exact_mod_cast y2_le_cropY1_add b
      linarith
  simp only [remapPart, if_pos hvis]
  exact ⟨hx, hy⟩

/-- Claim C7 witness: concrete instance of cub_keypoint_bounds. -/
theorem cub_keypoint_bounds_w :
    (0 : ℚ) < 128 ∧ ((1 : ℚ) > 0) ∧
    (-1 ≤ (remapPart 128 ⟨0, 0, 9, 9⟩ (3, 4, 1)).1 ∧
      (remapPart 128 ⟨0, 0, 9, 9⟩ (3, 4, 1)).1 ≤ 1) :=
  ⟨by norm_num, by norm_num,
    (cub_keypoint_bounds 128 ⟨0, 0, 9, 9⟩ (3, 4, 1) (by norm_num) (by decide) (by decide)
      (by decide) (by decide) (by norm_num) (by norm_num) (by norm_num)
      (by norm_num) (by norm_num)).1⟩

/- ------------------------------------------------------------------
Claim C8.
------------------------------------------------------------------- -/

/-- Claim C8: the keypoint remap (subtract crop origin, scale by
s / l, map [0,s] to [-1,1]) is invertible: composing with the
step-by-step inverse recovers the original coordinate exactly
(hence in particular within resize rounding tolerance). -/
theorem remap_roundtrip (s l origin x : ℚ) (hs : s ≠ 0) (hl : l ≠ 0) :
    remapCoordInv s l origin (remapCoord s l origin x) = x := by
  unfold remapCoord remapCoordInv
  field_simp
  ring

/-- Claim C8 witness: concrete instance of remap_roundtrip. -/
theorem remap_roundtrip_w :
    (128 : ℚ) ≠ 0 ∧ (10 : ℚ) ≠ 0 ∧
    remapCoordInv 128 10 3 (remapCoord 128 10 3 7) = 7 :=
  ⟨by norm_num, by norm_num, remap_roundtrip 128 10 3 7 (by norm_num) (by norm_num)⟩

/- ------------------------------------------------------------------
Attribute classifier rules: Beards2Glasses, dataset.py lines 298-326.
An attribute vector is the fixed-width 40-element binary row of
list_attr_celeba.txt after the -1 -> 0 remap.
------------------------------------------------------------------- -/

/-- male_no_5_oclock: attributes[20] == 1 and attributes[0] == 0
(dataset.py lines 298-300). -/
def male_no_5_oclock (a : Fin 40 → Int) : Bool := a 20 == 1 && a 0 == 0

/-- beard: attributes[22] == 1 or attributes[16] == 1 or
attributes[24] == 0 (dataset.py lines 302-304). -/
def beard (a : Fin 40 → Int) : Bool := a 22 == 1 || a 16 == 1 || a 24 == 0

/-- glasses: attributes[15] == 1 (dataset.py lines 306-308). -/
def glasses (a : Fin 40 → Int) : Bool := a 15 == 1

/-- Class assigned to one sample by the loop of Beards2Glasses.read
(lines 315-323): 0 for male_no_5_oclock and beard and not glasses,
1 for male_no_5_oclock and not beard and glasses, sentinel -1
otherwise. -/
def b2gClass (a : Fin 40 → Int) : Int :=
  if male_no_5_oclock a && beard a && !(glasses a) then 0
  else if male_no_5_oclock a && !(beard a) && glasses a then 1
  else -1

/-- Samples surviving the classes != -1 mask (lines 325-326); a sample
is a (path, attribute-vector) pair. -/
def b2gKept {P : Type} (samples : List (P × (Fin 40 → Int))) : List (P × (Fin 40 → Int)) :=
  samples.filter (fun s => b2gClass s.2 != -1)

/-- Record returned by Beards2Glasses.read (lines 339-342): the
cropped-and-resized images of the kept samples (rendering abstracted
as a function on paths) and their classes. -/
structure B2GRecord (I : Type) where
  img : List I
  cls : List Int

def b2gRead {P I : Type} (render : P → I) (samples : List (P × (Fin 40 → Int))) : B2GRecord I :=
  { img := (b2gKept samples).map (fun s => render s.1)
  , cls := (b2gKept samples).map (fun s => b2gClass s.2) }

/-- b2gClass only ever takes the values 0, 1 and -1. -/
lemma b2gClass_cases (a : Fin 40 → Int) :
    b2gClass a = 0 ∨ b2gClass a = 1 ∨ b2gClass a = -1 := by
  unfold b2gClass
  split_ifs <;> simp

/- ------------------------------------------------------------------
Claim C3.
------------------------------------------------------------------- -/

/-- Claim C3: a vector with attr[20]=1, attr[0]=0, attr[22]=1 and
glasses false is assigned class 0; one with attr[20]=1, attr[0]=0,
attr[15]=1 and beard false is assigned class 1; and a sample matching
neither classification rule is absent from the kept sample list (hence
from the output record) entirely. -/
theorem b2g_classification {P : Type} (a : Fin 40 → Int)
    (samples : List (P × (Fin 40 → Int))) (s : P × (Fin 40 → Int)) :
    (a 20 = 1 → a 0 = 0 → a 22 = 1 → glasses a = false → b2gClass a = 0) ∧
    (a 20 = 1 → a 0 = 0 → a 15 = 1 → beard a = false → b2gClass a = 1) ∧
    (¬(male_no_5_oclock s.2 = true ∧ beard s.2 = true ∧ glasses s.2 = false) →
      ¬(male_no_5_oclock s.2 = true ∧ beard s.2 = false ∧ glasses s.2 = true) →
      s ∉ b2gKept samples) := by
  refine ⟨?_, ?_, ?_⟩
  · intro h1 h2 h3 h4
    simp [b2gClass, male_no_5_oclock, beard, h1, h2, h3, h4]
  · intro h1 h2 h3 h4
    simp [b2gClass, male_no_5_oclock, glasses, h1, h2, h3, h4]
  · intro hA hB
    have hA' : (male_no_5_oclock s.2 && beard s.2 && !(glasses s.2)) = false := by
      cases hm : male_no_5_oclock s.2 <;> cases hb : beard s.2 <;>
        cases hg : glasses s.2 <;> simp_all
    have hB' : (male_no_5_oclock s.2 && !(beard s.2) && glasses s.2) = false := by
      cases hm : male_no_5_oclock s.2 <;> cases hb : beard s.2 <;>
        cases hg : glasses s.2 <;> simp_all
    have hc : b2gClass s.2 = -1 := by
      simp [b2gClass, hA', hB']
    simp [b2gKept, List.mem_filter, hc]

/-- Attribute vector with exactly attributes 20 and 22 set. -/
def attrC0 : Fin 40 → Int := fun i => if i = 20 ∨ i = 22 then 1 else 0

/-- Claim C3 witness: concrete instance of b2g_classification. -/
theorem b2g_classification_w :
    attrC0 20 = 1 ∧ attrC0 0 = 0 ∧ attrC0 22 = 1 ∧ glasses attrC0 = false ∧
    b2gClass attrC0 = 0 :=
  ⟨by decide, by decide, by decide, by decide,
    (b2g_classification (P := Unit) attrC0 [] ((), attrC0)).1
      (by decide) (by decide) (by decide) (by decide)⟩

/- ------------------------------------------------------------------
Claim C10.
------------------------------------------------------------------- -/

/-- Claim C10: the beard predicate holds iff attr[22]=1 or attr[16]=1 or
attr[24]=0; in particular a vector with attr[24]=0 counts as bearded
even with attr[22]=attr[16]=0, and with attr[20]=1, attr[0]=0,
attr[15]=0 such a sample is assigned class 0. -/
theorem b2g_beard_iff (a : Fin 40 → Int) :
    (beard a = true ↔ (a 22 = 1 ∨ a 16 = 1 ∨ a 24 = 0)) ∧
    (a 24 = 0 → a 22 = 0 → a 16 = 0 → a 20 = 1 → a 0 = 0 → a 15 = 0 →
      b2gClass a = 0) := by
  constructor
  · simp [beard, or_assoc]
  · intro h24 h22 h16 h20 h0 h15
    simp [b2gClass, male_no_5_oclock, beard, glasses, h24, h22, h16, h20, h0, h15]

/-- Attribute vector with exactly attribute 20 set. -/
def attrC10 : Fin 40 → Int := fun i => if i = 20 then 1 else 0

/-- Claim C10 witness: concrete instance of b2g_beard_iff. -/
theorem b2g_beard_iff_w :
    attrC10 24 = 0 ∧ attrC10 22 = 0 ∧ attrC10 16 = 0 ∧ attrC10 20 = 1 ∧
    attrC10 0 = 0 ∧ attrC10 15 = 0 ∧ b2gClass attrC10 = 0 :=
  ⟨by decide, by decide, by decide, by decide, by decide, by decide,
    (b2g_beard_iff attrC10).2 (by decide) (by decide) (by decide) (by decide)
      (by decide) (by decide)⟩

/- ------------------------------------------------------------------
Cars3D reader: dataset.py lines 27-51.  The triple loop writes
classes[idx] = object_id and contents[idx] = elevation * 24 + azimuth
at idx = elevation * 24 * 183 + azimuth * 183 + object_id into arrays
allocated with np.empty.  An array cell is modelled as Option-valued
(none = never written), the loop as the ordered list of writes it
performs, applied left to right with last-write-wins semantics.
------------------------------------------------------------------- -/

def carsIndex (e a o : Nat) : Nat := e * 24 * 183 + a * 183 + o

/-- The sequence of (index, (class, content)) writes performed by the
loop nest of Cars3D.read (lines 39-45), in iteration order. -/
def carsWrites : List (Nat × Nat × Nat) :=
  (List.range 4).flatMap (fun e =>
    (List.range 24).flatMap (fun a =>
      (List.range 183).map (fun o => (carsIndex e a o, o, e * 24 + a))))

/-- Apply a list of array writes in order to an Option-valued cell
function. -/
def applyWrites {β : Type} (ws : List (Nat × β)) (f0 : Nat → Option β) : Nat → Option β :=
  ws.foldl (fun f w => Function.update f w.1 (some w.2)) f0

/-- Cell contents of the classes/contents arrays after the loop nest. -/
def carsFill : Nat → Option (Nat × Nat) := applyWrites carsWrites (fun _ => none)

/-- Record returned by Cars3D.read (lines 47-51): imgs from the npz
archive, classes and contents arrays of the same length. -/
structure CarsRecord (I : Type) where
  img : List I
  cls : List (Option Nat)
  content : List (Option Nat)

def carsRead {I : Type} (imgs : List I) : CarsRecord I :=
  { img := imgs
  , cls := (List.range imgs.length).map (fun i => (carsFill i).map Prod.fst)
  , content := (List.range imgs.length).map (fun i => (carsFill i).map Prod.snd) }

lemma applyWrites_of_not_mem {β : Type} (ws : List (Nat × β)) (f0 : Nat → Option β)
    (k : Nat) (h : ∀ w ∈ ws, w.1 ≠ k) : applyWrites ws f0 k = f0 k := by
  induction ws generalizing f0 with
  | nil => rfl
  | cons w t ih =>
    have hw : w.1 ≠ k := h w (List.mem_cons_self _ _)
    rw [show applyWrites (w :: t) f0 = applyWrites t (Function.update f0 w.1 (some w.2)) from rfl]
    rw [ih _ (fun w' hw' => h w' (List.mem_cons_of_mem _ hw'))]
    exact Function.update_noteq (Ne.symm hw) _ _

lemma applyWrites_of_mem {β : Type} (ws : List (Nat × β)) :
    ∀ (f0 : Nat → Option β) (k : Nat) (v : β), (k, v) ∈ ws →
      (∀ v', (k, v') ∈ ws → v' = v) → applyWrites ws f0 k = some v := by
  induction ws with
  | nil =>
    intro f0 k v hmem _
    cases hmem
  | cons w t ih =>
    intro f0 k v hmem huniq
    by_cases htail : ∃ v', (k, v') ∈ t
    · obtain ⟨v', hv'⟩ := htail
      have hvv : v' = v := huniq v' (List.mem_cons_of_mem _ hv')
      subst hvv
      exact ih _ k _ hv' (fun v'' h'' => huniq v'' (List.mem_cons_of_mem _ h''))
    · have hw : w = (k, v) := by
        rcases List.mem_cons.mp hmem with h | h
        · exact h.symm
        · exact absurd ⟨v, h⟩ htail
      subst hw
      rw [show applyWrites ((k, v) :: t) f0 = applyWrites t (Function.update f0 k (some v)) from rfl]
      have hne : ∀ w' ∈ t, w'.1 ≠ k := by
        rintro ⟨k', v'⟩ hw' h
        have h' : k' = k := h
        subst h'
        exact htail ⟨v', hw'⟩
      rw [applyWrites_of_not_mem t _ k hne]
      exact Function.update_same _ _ _

lemma carsWrites_mem (e a o : Nat) (he : e < 4) (ha : a < 24) (ho : o < 183) :
    (carsIndex e a o, o, e * 24 + a) ∈ carsWrites := by
  simp only [carsWrites, List.mem_flatMap, List.mem_map, List.mem_range]
  exact ⟨e, he, a, ha, o, ho, rfl⟩

lemma carsWrites_uniq (e a o : Nat) (he : e < 4) (ha : a < 24) (ho : o < 183) :
    ∀ v', (carsIndex e a o, v') ∈ carsWrites → v' = (o, e * 24 + a) := by
  intro v' hv'
  simp only [carsWrites, List.mem_flatMap, List.mem_map, List.mem_range] at hv'
  obtain ⟨e', he', a', ha', o', ho', heq⟩ := hv'
  have h1 : carsIndex e' a' o' = carsIndex e a o := congrArg Prod.fst heq
  have h2 : (o', e' * 24 + a') = v' := congrArg Prod.snd heq
  have hid : e' = e ∧ a' = a ∧ o' = o := by
    simp only [carsIndex] at h1
    omega
  obtain ⟨rfl, rfl, rfl⟩ := hid
  exact h2.symm

/- ------------------------------------------------------------------
Claim C2.
------------------------------------------------------------------- -/

/-- Claim C2: in the record produced by Cars3D.read, for every
elevation e < 4, azimuth a < 24 and object id o < 183, the cell at
sample index e*24*183 + a*183 + o holds class o and content
e*24 + a. -/
theorem cars3d_class_content {I : Type} (imgs : List I) (e a o : Nat)
    (he : e < 4) (ha : a < 24) (ho : o < 183) (hn : carsIndex e a o < imgs.length) :
    (carsRead imgs).cls[carsIndex e a o]? = some (some o) ∧
    (carsRead imgs).content[carsIndex e a o]? = some (some (e * 24 + a)) := by
  have hfill : carsFill (carsIndex e a o) = some (o, e * 24 + a) :=
    applyWrites_of_mem carsWrites _ _ _ (carsWrites_mem e a o he ha ho)
      (carsWrites_uniq e a o he ha ho)
  constructor <;>
    simp [carsRead, List.getElem?_map, List.getElem?_range, hn, hfill]

/-- Claim C2 witness: concrete instance of cars3d_class_content. -/
theorem cars3d_class_content_w :
    carsIndex 0 0 0 < ([()] : List Unit).length ∧
    (carsRead [()]).cls[carsIndex 0 0 0]? = some (some 0) :=
  ⟨by decide,
    (cars3d_class_content [()] 0 0 0 (by decide) (by decide) (by decide) (by decide)).1⟩

/- ------------------------------------------------------------------
CelebA reader: dataset.py lines 159-248.  A sample is a (path,
identity-string) pair.  Image decoding, center-crop and resize are
abstracted as a rendering function on paths; attribute lookup as a
total map (a missing entry would abort the read before any record is
produced); the face_alignment detector as a function returning the
candidate list that fa.get_landmarks yields, or none.
------------------------------------------------------------------- -/

/-- The 68*2 zero-initialized landmark row (np.zeros, line 220). -/
def zeroLandmarks : List Int := List.replicate (68 * 2) 0

/-- Landmark slot written for one sample (lines 237-241): when the
detector returns None or an empty candidate list the loop continues,
leaving the zero sentinel; otherwise the first candidate is flattened
row-major into the slot. -/
def landmarkSlot (preds : Option (List (List (Int × Int)))) : List Int :=
  match preds with
  | none => zeroLandmarks
  | some [] => zeroLandmarks
  | some (c :: _) => c.flatMap (fun q => [q.1, q.2])

/-- Record returned by CelebA.read (lines 243-248). -/
structure CelebARecord (I : Type) where
  img : List I
  cls : List Nat
  attrs : List (Fin 40 → Int)
  lmks : List (List Int)

/-- CelebA.read: every per-sample array is filled for every sample;
classes dense-map the identity strings through the list of distinct
identities (list(set(identity_ids)), line 215, modelled by dedup),
via unique_identities.index (line 234). -/
def celebaRead {P I : Type} (render : P → I) (attrMap : P → Fin 40 → Int)
    (det : P → Option (List (List (Int × Int)))) (samples : List (P × String)) :
    CelebARecord I :=
  { img := samples.map (fun s => render s.1)
  , cls := samples.map (fun s => (samples.map Prod.snd).dedup.indexOf s.2)
  , attrs := samples.map (fun s => attrMap s.1)
  , lmks := samples.map (fun s => landmarkSlot (det s.1)) }

/- ------------------------------------------------------------------
Claim C4.
------------------------------------------------------------------- -/

/-- Claim C4: when landmark detection yields no candidates (None or an
empty list) for sample i, CelebA.read still returns a complete record
(all four sequences have one entry per sample) and the landmark slot of
sample i is the all-zero vector; the failure never aborts the read. -/
theorem celeba_landmark_fallback {P I : Type} (render : P → I)
    (attrMap : P → Fin 40 → Int) (det : P → Option (List (List (Int × Int))))
    (samples : List (P × String)) (i : Nat) (h : i < samples.length)
    (hfail : det samples[i].1 = none ∨ det samples[i].1 = some []) :
    (celebaRead render attrMap det samples).lmks[i]? = some zeroLandmarks ∧
    (celebaRead render attrMap det samples).img.length = samples.length ∧
    (celebaRead render attrMap det samples).cls.length = samples.length ∧
    (celebaRead render attrMap det samples).attrs.length = samples.length ∧
    (celebaRead render attrMap det samples).lmks.length = samples.length := by
  have hslot : landmarkSlot (det samples[i].1) = zeroLandmarks := by
    rcases hfail with hf | hf <;> rw [hf] <;> rfl
  refine ⟨?_, by simp [celebaRead], by simp [celebaRead], by simp [celebaRead],
    by simp [celebaRead]⟩
  simp [celebaRead, List.getElem?_map, List.getElem?_eq_getElem h, hslot]

/-- Claim C4 witness: concrete instance of celeba_landmark_fallback. -/
theorem celeba_landmark_fallback_w :
    0 < ([((), "id1")] : List (Unit × String)).length ∧
    (celebaRead (fun _ : Unit => (0 : Nat)) (fun _ _ => 0) (fun _ => none)
      [((), "id1")]).lmks[0]? = some zeroLandmarks :=
  ⟨by decide,
    (celeba_landmark_fallback (fun _ : Unit => (0 : Nat)) (fun _ _ => 0)
      (fun _ => none) [((), "id1")] 0 (by decide) (Or.inl rfl)).1⟩

/- ------------------------------------------------------------------
Cub, AFHQ and Pascal3D records, needed for claims C6 and C9.
------------------------------------------------------------------- -/

/-- One entry of the cub struct-of-arrays: bounding box (0-indexed),
keypoint rows (x, y, visibility), category folder name, raw image. -/
structure CubImage (I : Type) where
  raw : I
  bbox : BBox
  parts : List (ℚ × ℚ × ℚ)
  category : String

/-- Record returned by Cub.read (lines 125-129). -/
structure CubRecord (J : Type) where
  img : List J
  cls : List Nat
  content : List (List ℚ)

/-- Row-major flattening of the keypoint array (reshape((-1,)),
line 117). -/
def flattenParts (ps : List (ℚ × ℚ × ℚ)) : List ℚ :=
  ps.flatMap (fun p => [p.1, p.2.1, p.2.2])

/-- Cub.read: one image, one dense-mapped class (lines 119-123,
list(set(categories)) modelled by dedup) and one flattened remapped
keypoint vector per struct entry; masking, cropping and resizing are
abstracted into cropResize. -/
def cubRead {I J : Type} (cropResize : I → BBox → J) (s : ℚ)
    (structs : List (CubImage I)) : CubRecord J :=
  { img := structs.map (fun st => cropResize st.raw st.bbox)
  , cls := structs.map (fun st => (structs.map CubImage.category).dedup.indexOf st.category)
  , content := structs.map (fun st => flattenParts (st.parts.map (remapPart s st.bbox))) }

/-- Record returned by AFHQ.read (lines 369-372). -/
structure AfhqRecord (I : Type) where
  img : List I
  cls : List Nat

/-- AFHQ.read: one rendered image per file of each class directory,
class label = directory position in listing order (lines 357-372). -/
def afhqRead {P I : Type} (render : P → I) (classLists : List (List P)) : AfhqRecord I :=
  { img := classLists.flatMap (fun ps => ps.map render)
  , cls := classLists.enum.flatMap (fun e => List.replicate e.2.length e.1) }

/-- Record returned by Pascal3D.read (lines 153-156). -/
structure PascalRecord (I : Type) where
  img : List I
  cls : List Int

/-- Pascal3D.read: images from the external Pascal reader, resized;
classes loaded verbatim from the external class archive
(np.load(classes_path), line 155) with no length check. -/
def pascalRead {I : Type} (resize : I → I) (imgs : List I)
    (classArchive : List Int) : PascalRecord I :=
  { img := imgs.map resize
  , cls := classArchive }

/- ------------------------------------------------------------------
Dense class mapping: shared by CelebA and Cub.
------------------------------------------------------------------- -/

/-- Mapping every raw id through index-in-a-duplicate-free listing of
exactly the occurring ids yields class values that fill [0, K) with no
gaps, K the number of distinct ids. -/
lemma denseIndex_contiguous {α : Type} [DecidableEq α] (ids uniq : List α)
    (hnd : uniq.Nodup) (hmem : ∀ x, x ∈ uniq ↔ x ∈ ids) :
    (∀ c ∈ ids.map (fun x => uniq.indexOf x), c < uniq.length) ∧
    (∀ k, k < uniq.length → k ∈ ids.map (fun x => uniq.indexOf x)) := by
  constructor
  · intro c hc
    obtain ⟨x, hx, rfl⟩ := List.mem_map.mp hc
    exact List.indexOf_lt_length.mpr ((hmem x).mpr hx)
  · intro k hk
    refine List.mem_map.mpr ⟨uniq.get ⟨k, hk⟩, ?_, ?_⟩
    · exact (hmem _).mp (uniq.get_mem _ _)
    · have h := List.indexOf_getElem hnd k hk
      simpa [List.get_eq_getElem] using h

/- ------------------------------------------------------------------
Claim C6.
------------------------------------------------------------------- -/

/-- The contiguity property claimed for class sequences: every value is
nonnegative and no smaller nonnegative value is missing, i.e. the set
of values is exactly [0, K) for some K. -/
def contiguousClasses (cs : List Int) : Prop :=
  ∀ c ∈ cs, 0 ≤ c ∧ ∀ j : Int, 0 ≤ j → j < c → j ∈ cs

/-- Attribute vector with exactly attributes 20, 15 and 24 set:
male_no_5_oclock, glasses, and not beard. -/
def attrC6 : Fin 40 → Int := fun i => if i = 20 ∨ i = 15 ∨ i = 24 then 1 else 0

/-- Claim C6 (counterexample): a Beards2Glasses record whose single
sample matches the glasses rule has class sequence [1], which does not
occupy a contiguous range [0, K): class 0 is absent. -/
theorem b2g_not_contiguous :
    (b2gRead (fun p : Unit => p) [((), attrC6)]).cls = [1] ∧
    ¬ contiguousClasses ((b2gRead (fun p : Unit => p) [((), attrC6)]).cls) := by
  have h : (b2gRead (fun p : Unit => p) [((), attrC6)]).cls = [1] := by decide
  refine ⟨h, ?_⟩
  rw [h]
  intro hcont
  have h1 := hcont 1 (by simp)
  have h0 := h1.2 0 (by norm_num) (by norm_num)
  simp at h0

/-- Claim C6 (amended): class contiguity holds for the readers that
dense-map raw identifiers — CelebA identities and Cub categories fill
[0, K) with no gaps — but not for Beards2Glasses, whose classes are the
raw rule ids: they lie in {0, 1} without any re-densification, so 0 may
be absent. -/
theorem class_range_contiguity {P I J : Type} (render : P → I)
    (attrMap : P → Fin 40 → Int) (det : P → Option (List (List (Int × Int))))
    (samples : List (P × String)) (cropResize : I → BBox → J) (s : ℚ)
    (structs : List (CubImage I)) (render2 : P → I)
    (bsamples : List (P × (Fin 40 → Int))) :
    (∀ c ∈ (celebaRead render attrMap det samples).cls,
      c < (samples.map Prod.snd).dedup.length) ∧
    (∀ k, k < (samples.map Prod.snd).dedup.length →
      k ∈ (celebaRead render attrMap det samples).cls) ∧
    (∀ c ∈ (cubRead cropResize s structs).cls,
      c < (structs.map CubImage.category).dedup.length) ∧
    (∀ k, k < (structs.map CubImage.category).dedup.length →
      k ∈ (cubRead cropResize s structs).cls) ∧
    (∀ c ∈ (b2gRead render2 bsamples).cls, c = 0 ∨ c = 1) := by
  have hcel : (celebaRead render attrMap det samples).cls =
      (samples.map Prod.snd).map (fun x => (samples.map Prod.snd).dedup.indexOf x) := by
    simp [celebaRead, List.map_map, Function.comp]
  have hcub : (cubRead cropResize s structs).cls =
      (structs.map CubImage.category).map
        (fun x => (structs.map CubImage.category).dedup.indexOf x) := by
    simp [cubRead, List.map_map, Function.comp]
  have h1 := denseIndex_contiguous (samples.map Prod.snd) (samples.map Prod.snd).dedup
    (samples.map Prod.snd).nodup_dedup (fun x => List.mem_dedup)
  have h2 := denseIndex_contiguous (structs.map CubImage.category)
    (structs.map CubImage.category).dedup
    (structs.map CubImage.category).nodup_dedup (fun x => List.mem_dedup)
  refine ⟨?_, ?_, ?_, ?_, ?_⟩
  · rw [hcel]; exact h1.1
  · rw [hcel]; exact h1.2
  · rw [hcub]; exact h2.1
  · rw [hcub]; exact h2.2
  · intro c hc
    obtain ⟨t, ht, rfl⟩ := List.mem_map.mp hc
    have hkept := List.mem_filter.mp ht
    have hne : b2gClass t.2 ≠ -1 := by simpa using hkept.2
    rcases b2gClass_cases t.2 with h | h | h
    · exact Or.inl h
    · exact Or.inr h
    · exact absurd h hne

/-- Claim C6 witness: concrete instance of class_range_contiguity. -/
theorem class_range_contiguity_w :
    1 < (([((), "a"), ((), "b")] : List (Unit × String)).map Prod.snd).dedup.length ∧
    1 ∈ (celebaRead (fun _ : Unit => (0 : Nat)) (fun _ _ => 0) (fun _ => none)
      [((), "a"), ((), "b")]).cls :=
  ⟨by decide,
    (class_range_contiguity (fun _ : Unit => (0 : Nat)) (fun _ _ => 0) (fun _ => none)
      [((), "a"), ((), "b")] (fun (i : Nat) (_ : BBox) => i) 1 [] (fun _ => 0)
      []).2.1 1 (by decide)⟩

/- ------------------------------------------------------------------
Claim C9.
------------------------------------------------------------------- -/

/-- Claim C9 (counterexample): Pascal3D.read takes its class sequence
verbatim from an external archive; with 2 images and a 3-entry class
archive the record's sequences differ in length. -/
theorem pascal_length_mismatch :
    (pascalRead (fun i : Nat => i) [7, 8] [0, 1, 2]).img.length = 2 ∧
    (pascalRead (fun i : Nat => i) [7, 8] [0, 1, 2]).cls.length = 3 ∧
    (pascalRead (fun i : Nat => i) [7, 8] [0, 1, 2]).img.length ≠
      (pascalRead (fun i : Nat => i) [7, 8] [0, 1, 2]).cls.length := by
  refine ⟨rfl, rfl, by decide⟩

lemma enumFrom_replicate_length {P : Type} :
    ∀ (l : List (List P)) (n : Nat),
      ((l.enumFrom n).flatMap (fun e => List.replicate e.2.length e.1)).length =
        (l.map List.length).sum := by
  intro l
  induction l with
  | nil => intro n; rfl
  | cons a t ih =>
    intro n
    simp [List.enumFrom, ih]

/-- Claim C9 (amended): all sequences of a record share one length for
every reader that constructs them — Cars3D, Cub, CelebA,
Beards2Glasses and AFHQ guarantee it by construction; for Pascal3D the
img and class sequences agree exactly when the external class archive
has one entry per image. -/
theorem record_lengths :
    (∀ (I : Type) (imgs : List I),
      (carsRead imgs).img.length = imgs.length ∧
      (carsRead imgs).cls.length = imgs.length ∧
      (carsRead imgs).content.length = imgs.length) ∧
    (∀ (I J : Type) (cropResize : I → BBox → J) (s : ℚ) (structs : List (CubImage I)),
      (cubRead cropResize s structs).img.length = structs.length ∧
      (cubRead cropResize s structs).cls.length = structs.length ∧
      (cubRead cropResize s structs).content.length = structs.length) ∧
    (∀ (P I : Type) (render : P → I) (attrMap : P → Fin 40 → Int)
      (det : P → Option (List (List (Int × Int)))) (samples : List (P × String)),
      (celebaRead render attrMap det samples).img.length = samples.length ∧
      (celebaRead render attrMap det samples).cls.length = samples.length ∧
      (celebaRead render attrMap det samples).attrs.length = samples.length ∧
      (celebaRead render attrMap det samples).lmks.length = samples.length) ∧
    (∀ (P I : Type) (render : P → I) (bsamples : List (P × (Fin 40 → Int))),
      (b2gRead render bsamples).img.length = (b2gRead render bsamples).cls.length) ∧
    (∀ (P I : Type) (render : P → I) (classLists : List (List P)),
      (afhqRead render classLists).img.length = (afhqRead render classLists).cls.length) ∧
    (∀ (I : Type) (resize : I → I) (imgs : List I) (classArchive : List Int),
      classArchive.length = imgs.length →
      (pascalRead resize imgs classArchive).img.length =
        (pascalRead resize imgs classArchive).cls.length) := by
  refine ⟨?_, ?_, ?_, ?_, ?_, ?_⟩
  · intro I imgs
    refine ⟨rfl, by simp [carsRead], by simp [carsRead]⟩
  · intro I J cropResize s structs
    refine ⟨by simp [cubRead], by simp [cubRead], by simp [cubRead]⟩
  · intro P I render attrMap det samples
    refine ⟨by simp [celebaRead], by simp [celebaRead], by simp [celebaRead],
      by simp [celebaRead]⟩
  · intro P I render bsamples
    simp [b2gRead]
  · intro P I render classLists
    have himg : (afhqRead render classLists).img.length = (classLists.map List.length).sum := by
      simp [afhqRead, List.length_flatMap, List.map_map, Function.comp_def]
    have hcls : (afhqRead render classLists).cls.length = (classLists.map List.length).sum := by
      have h := enumFrom_replicate_length (P := P) classLists 0
      simpa [afhqRead, List.enum] using h
    rw [himg, hcls]
  · intro I resize imgs classArchive hlen
    simp [pascalRead, hlen]

/-- Claim C9 witness: concrete instance of record_lengths. -/
theorem record_lengths_w :
    ([5] : List Int).length = ([0] : List Nat).length ∧
    (pascalRead (fun i : Nat => i) [0] [5]).img.length =
      (pascalRead (fun i : Nat => i) [0] [5]).cls.length :=
  ⟨rfl, record_lengths.2.2.2.2.2 Nat (fun i => i) [0] [5] rfl⟩
